import Mathlib

/-!
Verification development for the breze autoencoder / dropout-MLP core.

Shallow embedding of:
* src/breze/arch/model/feature/autoencoder.py — the autoencoder family
  (plain, denoising, sparse, contractive) and their expression graphs;
* src/breze/learn/mlp.py — the dropout training loops and their
  post-step max-norm column projection.

Symbolic Theano tensor expressions are embedded as the inductive type
`TExpr`; an expression graph (the `exprs` dictionary of the Python code)
is a finite map from role names to expressions; numeric evaluation of an
expression under an environment (values for the symbolic inputs, the
parameter slots, the transfer/loss registries and the realized random
draws) is `evalE`, producing a rational matrix.
-/

/-- A matrix with explicit dimensions and a total entry function.
Entries outside the `rows × cols` range are irrelevant junk; all
definitions read entries only inside the range. -/
structure Mat (α : Type) where
  rows : Nat
  cols : Nat
  entry : Nat → Nat → α

abbrev MatQ := Mat ℚ

/-- Symbolic tensor expressions, mirroring the Theano expressions the
Python code builds.  `var` is a free symbolic matrix (such as the
input matrix created by `T.matrix` at graph-build time), `param` is a
named parameter slot of the `ParameterSet`, `transfer`/`lossElem` apply
a registry function looked up by name, `gaussPerturb`/`maskE` are the
corruption primitives of `breze.arch.component.corrupt`, and `gradE` is
`T.grad` of a scalar expression with respect to another expression. -/
inductive TExpr : Type where
  | var (name : String)
  | param (name : String)
  | constE (c : ℚ)
  | transposeE (e : TExpr)
  | dot (a b : TExpr)
  | add (a b : TExpr)
  | mulE (a b : TExpr)
  | smul (c : ℚ) (e : TExpr)
  | square (e : TExpr)
  | transfer (f : String) (e : TExpr)
  | lossElem (f : String) (target output : TExpr)
  | sumFeature (e : TExpr)
  | meanAll (e : TExpr)
  | meanAxis0 (e : TExpr)
  | sumAll (e : TExpr)
  | gaussPerturb (e : TExpr) (c : ℚ)
  | maskE (e : TExpr) (c : ℚ)
  | gradE (of wrt : TExpr)
  deriving DecidableEq

/-- The `exprs` dictionary: a map from role name to symbolic expression. -/
abbrev Exprs := String → Option TExpr

def Exprs.empty : Exprs := fun _ => none

/-- Dictionary write `exprs[k] = v` (adds or overwrites). -/
def Exprs.update (m : Exprs) (k : String) (v : TExpr) : Exprs :=
  fun q => if q = k then some v else m q

/-- Dictionary deletion `del exprs[k]`. -/
def Exprs.erase (m : Exprs) (k : String) : Exprs :=
  fun q => if q = k then none else m q

/-- Dictionary read `exprs[k]`.  The Python code only reads keys that are
present; the default never fires in any expression built below. -/
def Exprs.get (m : Exprs) (k : String) : TExpr :=
  (m k).getD (TExpr.var "KeyError")

/-- Substitution of every occurrence of the subexpression `target` by
`repl`, mirroring `theano.clone(e, givens)` with a single given
`target -> repl`. -/
def TExpr.clone (target repl : TExpr) (e : TExpr) : TExpr :=
  if e = target then repl else
  match e with
  | TExpr.var s => TExpr.var s
  | TExpr.param s => TExpr.param s
  | TExpr.constE c => TExpr.constE c
  | TExpr.transposeE a => TExpr.transposeE (TExpr.clone target repl a)
  | TExpr.dot a b => TExpr.dot (TExpr.clone target repl a) (TExpr.clone target repl b)
  | TExpr.add a b => TExpr.add (TExpr.clone target repl a) (TExpr.clone target repl b)
  | TExpr.mulE a b => TExpr.mulE (TExpr.clone target repl a) (TExpr.clone target repl b)
  | TExpr.smul c a => TExpr.smul c (TExpr.clone target repl a)
  | TExpr.square a => TExpr.square (TExpr.clone target repl a)
  | TExpr.transfer f a => TExpr.transfer f (TExpr.clone target repl a)
  | TExpr.lossElem f t o =>
      TExpr.lossElem f (TExpr.clone target repl t) (TExpr.clone target repl o)
  | TExpr.sumFeature a => TExpr.sumFeature (TExpr.clone target repl a)
  | TExpr.meanAll a => TExpr.meanAll (TExpr.clone target repl a)
  | TExpr.meanAxis0 a => TExpr.meanAxis0 (TExpr.clone target repl a)
  | TExpr.sumAll a => TExpr.sumAll (TExpr.clone target repl a)
  | TExpr.gaussPerturb a c => TExpr.gaussPerturb (TExpr.clone target repl a) c
  | TExpr.maskE a c => TExpr.maskE (TExpr.clone target repl a) c
  | TExpr.gradE a b => TExpr.gradE (TExpr.clone target repl a) (TExpr.clone target repl b)

/-- Evaluation environment: numeric values for the symbolic input
matrices and the parameter slots, the transfer-function and
loss-function registries (external collaborators, looked up by name),
the realized random draws consumed by the corruption primitives, and a
semantic stand-in for the value of `T.grad` subexpressions (symbolic
differentiation itself is external to this embedding; quantifying over
`gradVal` covers the true derivative among all interpretations). -/
structure EvalEnv where
  vars : String → MatQ
  pars : String → MatQ
  transfers : String → ℚ → ℚ
  losses : String → ℚ → ℚ → ℚ
  noiseDraw : MatQ
  maskDraw : MatQ
  gradVal : TExpr → TExpr → MatQ

/-- Numpy-style broadcast index: a dimension of extent 1 repeats. -/
def bidx (n i : Nat) : Nat := if n = 1 then 0 else i

/-- Elementwise binary operation with numpy-style broadcasting. -/
def bcast2 (f : ℚ → ℚ → ℚ) (a b : MatQ) : MatQ :=
  ⟨max a.rows b.rows, max a.cols b.cols, fun i j =>
    f (a.entry (bidx a.rows i) (bidx a.cols j))
      (b.entry (bidx b.rows i) (bidx b.cols j))⟩

/-- Evaluation of a symbolic expression to a rational matrix.
The corruption cases are modelled from the spec (the module
`breze.arch.component.corrupt` is not part of the sources):
`gaussian_perturb(e, c)` adds a noise draw scaled by `c`;
`mask(e, c)` multiplies elementwise by a realized 0/1 mask drawn with
drop probability `c` (the realized draw lives in the environment). -/
def evalE (env : EvalEnv) : TExpr → MatQ
  | TExpr.var s => env.vars s
  | TExpr.param s => env.pars s
  | TExpr.constE c => ⟨1, 1, fun _ _ => c⟩
  | TExpr.transposeE e =>
      let m := evalE env e
      ⟨m.cols, m.rows, fun i j => m.entry j i⟩
  | TExpr.dot a b =>
      let ma := evalE env a
      let mb := evalE env b
      ⟨ma.rows, mb.cols, fun i j =>
        ∑ k ∈ Finset.range ma.cols, ma.entry i k * mb.entry k j⟩
  | TExpr.add a b => bcast2 (fun x y => x + y) (evalE env a) (evalE env b)
  | TExpr.mulE a b => bcast2 (fun x y => x * y) (evalE env a) (evalE env b)
  | TExpr.smul c e =>
      let m := evalE env e
      ⟨m.rows, m.cols, fun i j => c * m.entry i j⟩
  | TExpr.square e =>
      let m := evalE env e
      ⟨m.rows, m.cols, fun i j => m.entry i j * m.entry i j⟩
  | TExpr.transfer f e =>
      let m := evalE env e
      ⟨m.rows, m.cols, fun i j => env.transfers f (m.entry i j)⟩
  | TExpr.lossElem f t o => bcast2 (env.losses f) (evalE env t) (evalE env o)
  | TExpr.sumFeature e =>
      let m := evalE env e
      ⟨m.rows, 1, fun i _ => ∑ j ∈ Finset.range m.cols, m.entry i j⟩
  | TExpr.meanAll e =>
      let m := evalE env e
      ⟨1, 1, fun _ _ =>
        (∑ i ∈ Finset.range m.rows, ∑ j ∈ Finset.range m.cols, m.entry i j) /
          ((m.rows * m.cols : Nat) : ℚ)⟩
  | TExpr.meanAxis0 e =>
      let m := evalE env e
      ⟨1, m.cols, fun _ j =>
        (∑ i ∈ Finset.range m.rows, m.entry i j) / ((m.rows : Nat) : ℚ)⟩
  | TExpr.sumAll e =>
      let m := evalE env e
      ⟨1, 1, fun _ _ =>
        ∑ i ∈ Finset.range m.rows, ∑ j ∈ Finset.range m.cols, m.entry i j⟩
  | TExpr.gaussPerturb e c =>
      let m := evalE env e
      ⟨m.rows, m.cols, fun i j => m.entry i j + c * env.noiseDraw.entry i j⟩
  | TExpr.maskE e _ =>
      let m := evalE env e
      ⟨m.rows, m.cols, fun i j => m.entry i j * env.maskDraw.entry i j⟩
  | TExpr.gradE a b => env.gradVal a b

/-- Modelled from the spec: `TwoLayerPerceptron.make_exprs`
(breze.arch.model.neural, not among the sources), per section 4.1 of
the specification: `hidden_in = inpt · encode + hidden_bias`,
`hidden = hidden_transfer(hidden_in)`,
`output_in = hidden · decode + out_bias`,
`output = out_transfer(output_in)`,
`loss_rowwise = loss_fn(target, output)` reduced over the feature axis
per sample and `loss = mean(loss_rowwise)`. -/
def TwoLayerPerceptron.make_exprs
    (inpt target in_to_hidden hidden_to_out hidden_bias out_bias : TExpr)
    (hidden_transfer out_transfer lossName : String) : Exprs :=
  let hidden_in := TExpr.add (TExpr.dot inpt in_to_hidden) hidden_bias
  let hidden := TExpr.transfer hidden_transfer hidden_in
  let output_in := TExpr.add (TExpr.dot hidden hidden_to_out) out_bias
  let output := TExpr.transfer out_transfer output_in
  let loss_rowwise := TExpr.sumFeature (TExpr.lossElem lossName target output)
  let loss := TExpr.meanAll loss_rowwise
  (((((((Exprs.empty.update "inpt" inpt).update "hidden_in" hidden_in).update
      "hidden" hidden).update "output_in" output_in).update
      "output" output).update "loss_rowwise" loss_rowwise).update "loss" loss)

/-- Parameter slot shapes: a Python int declares a vector slot, a pair
declares a matrix slot. -/
inductive PShape where
  | vec (n : Nat)
  | mat (r c : Nat)
  deriving DecidableEq

/-- autoencoder.py lines 44-54: `AutoEncoder.get_parameter_spec`. -/
def AutoEncoder.get_parameter_spec (n_inpt n_hidden : Nat) (tied_weights : Bool) :
    String → Option PShape :=
  if tied_weights then
    fun k =>
      if k = "in_to_hidden" then some (PShape.mat n_inpt n_hidden)
      else if k = "hidden_bias" then some (PShape.vec n_hidden)
      else if k = "out_bias" then some (PShape.vec n_inpt)
      else none
  else
    fun k =>
      if k = "in_to_hidden" then some (PShape.mat n_inpt n_hidden)
      else if k = "hidden_to_out" then some (PShape.mat n_hidden n_inpt)
      else if k = "hidden_bias" then some (PShape.vec n_hidden)
      else if k = "out_bias" then some (PShape.vec n_inpt)
      else none

/-- autoencoder.py lines 56-63: `AutoEncoder.make_exprs` delegates to the
two-layer template with `target = inpt` (self-reconstruction). -/
def AutoEncoder.make_exprs
    (inpt in_to_hidden hidden_to_out hidden_bias out_bias : TExpr)
    (hidden_transfer out_transfer lossName : String) : Exprs :=
  TwoLayerPerceptron.make_exprs inpt inpt in_to_hidden hidden_to_out
    hidden_bias out_bias hidden_transfer out_transfer lossName

/-- autoencoder.py lines 31-42: `AutoEncoder.init_exprs`: resolve the
decode matrix (transpose view of `in_to_hidden` when tied, the declared
`hidden_to_out` slot otherwise), build the graph from a fresh symbolic
input, and alias `feature = hidden`. -/
def AutoEncoder.init_exprs (tied_weights : Bool)
    (hidden_transfer out_transfer lossName : String) : Exprs :=
  let hidden_to_out :=
    if tied_weights then TExpr.transposeE (TExpr.param "in_to_hidden")
    else TExpr.param "hidden_to_out"
  let exprs := AutoEncoder.make_exprs (TExpr.var "inpt")
    (TExpr.param "in_to_hidden") hidden_to_out
    (TExpr.param "hidden_bias") (TExpr.param "out_bias")
    hidden_transfer out_transfer lossName
  exprs.update "feature" (exprs.get "hidden")

/-- autoencoder.py lines 92-97, the noise dispatch at the top of
`DenoisingAutoEncoder.make_exprs`: the name gauss builds an additive
Gaussian perturbation of the input scaled by `c_noise`, the name blink
builds an elementwise mask with drop probability `c_noise`, and any
other name raises a ValueError before any graph is built. -/
def DenoisingAutoEncoder.corrupted_expr (inpt : TExpr)
    (noise_type : String) (c_noise : ℚ) : Except String TExpr :=
  match noise_type with
  | "gauss" => Except.ok (TExpr.gaussPerturb inpt c_noise)
  | "blink" => Except.ok (TExpr.maskE inpt c_noise)
  | _ => Except.error ("unknown noise type " ++ noise_type)

/-- autoencoder.py lines 99-108: the graph-building part of
`DenoisingAutoEncoder.make_exprs`, reached only after the corruption
dispatch succeeded. -/
def DenoisingAutoEncoder.make_exprs
    (inpt in_to_hidden hidden_to_out hidden_bias out_bias : TExpr)
    (hidden_transfer out_transfer lossName : String)
    (noise_type : String) (c_noise : ℚ) : Except String Exprs :=
  match DenoisingAutoEncoder.corrupted_expr inpt noise_type c_noise with
  | Except.error e => Except.error e
  | Except.ok corrupted =>
    let exprs := TwoLayerPerceptron.make_exprs inpt inpt in_to_hidden
      hidden_to_out hidden_bias out_bias hidden_transfer out_transfer lossName
    let exprs1 := exprs.update "true_loss" (exprs.get "loss")
    let exprs2 := exprs1.update "loss"
      (TExpr.clone inpt corrupted (exprs1.get "loss"))
    let exprs3 := exprs2.update "corrupted" corrupted
    Except.ok exprs3

/-- autoencoder.py lines 76-86: `DenoisingAutoEncoder.init_exprs`. -/
def DenoisingAutoEncoder.init_exprs (tied_weights : Bool)
    (hidden_transfer out_transfer lossName : String)
    (noise_type : String) (c_noise : ℚ) : Except String Exprs :=
  let hidden_to_out :=
    if tied_weights then TExpr.transposeE (TExpr.param "in_to_hidden")
    else TExpr.param "hidden_to_out"
  DenoisingAutoEncoder.make_exprs (TExpr.var "inpt")
    (TExpr.param "in_to_hidden") hidden_to_out
    (TExpr.param "hidden_bias") (TExpr.param "out_bias")
    hidden_transfer out_transfer lossName noise_type c_noise

/-- autoencoder.py lines 137-158: `SparseAutoEncoder.make_exprs`: build
the base graph, form the sparsity penalty by applying the named
sparsity loss to the target rate against the batch-mean hidden
activation and summing to a scalar, rename the pristine rowwise and
scalar losses, drop `loss_rowwise` and overwrite `loss`. -/
def SparseAutoEncoder.make_exprs
    (inpt in_to_hidden hidden_to_out hidden_bias out_bias : TExpr)
    (hidden_transfer out_transfer lossName : String)
    (sparsity_loss : String) (c_sparsity sparsity_target : ℚ) : Exprs :=
  let exprs := AutoEncoder.make_exprs inpt in_to_hidden hidden_to_out
    hidden_bias out_bias hidden_transfer out_transfer lossName
  let hidden := exprs.get "hidden"
  let sparsity_loss_expr := TExpr.sumAll
    (TExpr.lossElem sparsity_loss (TExpr.constE sparsity_target)
      (TExpr.meanAxis0 hidden))
  let exprs1 := exprs.update "sparsity_loss" sparsity_loss_expr
  let exprs2 := exprs1.update "reconstruct_loss_rowwise" (exprs1.get "loss_rowwise")
  let exprs3 := exprs2.erase "loss_rowwise"
  let exprs4 := exprs3.update "reconstruct_loss" (exprs3.get "loss")
  let exprs5 := exprs4.update "loss"
    (TExpr.add (exprs4.get "reconstruct_loss")
      (TExpr.smul c_sparsity sparsity_loss_expr))
  exprs5

/-- autoencoder.py lines 125-135: `SparseAutoEncoder.init_exprs`. -/
def SparseAutoEncoder.init_exprs (tied_weights : Bool)
    (hidden_transfer out_transfer lossName : String)
    (sparsity_loss : String) (c_sparsity sparsity_target : ℚ) : Exprs :=
  let hidden_to_out :=
    if tied_weights then TExpr.transposeE (TExpr.param "in_to_hidden")
    else TExpr.param "hidden_to_out"
  SparseAutoEncoder.make_exprs (TExpr.var "inpt")
    (TExpr.param "in_to_hidden") hidden_to_out
    (TExpr.param "hidden_bias") (TExpr.param "out_bias")
    hidden_transfer out_transfer lossName
    sparsity_loss c_sparsity sparsity_target

/-- autoencoder.py lines 184-206: `ContractiveAutoEncoder.make_exprs`:
build the base graph, form the Jacobian penalty from the derivative of
the summed batch-mean hidden activation with respect to `hidden_in`,
squared, batch-averaged and weighted by the squared encode weights,
rename the pristine losses, drop `loss_rowwise` and overwrite `loss`. -/
def ContractiveAutoEncoder.make_exprs
    (inpt in_to_hidden hidden_to_out hidden_bias out_bias : TExpr)
    (hidden_transfer out_transfer lossName : String)
    (c_jacobian : ℚ) : Exprs :=
  let exprs := AutoEncoder.make_exprs inpt in_to_hidden hidden_to_out
    hidden_bias out_bias hidden_transfer out_transfer lossName
  let hidden := exprs.get "hidden"
  let hidden_in := exprs.get "hidden_in"
  let d_h_d_h_in := TExpr.gradE (TExpr.sumAll (TExpr.meanAxis0 hidden)) hidden_in
  let jacobian_loss := TExpr.sumAll
    (TExpr.mulE (TExpr.meanAxis0 (TExpr.square d_h_d_h_in))
      (TExpr.square in_to_hidden))
  let exprs1 := exprs.update "jacobian_loss" jacobian_loss
  let exprs2 := exprs1.update "reconstruct_loss_rowwise" (exprs1.get "loss_rowwise")
  let exprs3 := exprs2.update "reconstruct_loss" (exprs2.get "loss")
  let exprs4 := exprs3.erase "loss_rowwise"
  let exprs5 := exprs4.update "loss"
    (TExpr.add (exprs4.get "reconstruct_loss")
      (TExpr.smul c_jacobian jacobian_loss))
  exprs5

/-- autoencoder.py lines 172-182: `ContractiveAutoEncoder.init_exprs`. -/
def ContractiveAutoEncoder.init_exprs (tied_weights : Bool)
    (hidden_transfer out_transfer lossName : String)
    (c_jacobian : ℚ) : Exprs :=
  let hidden_to_out :=
    if tied_weights then TExpr.transposeE (TExpr.param "in_to_hidden")
    else TExpr.param "hidden_to_out"
  ContractiveAutoEncoder.make_exprs (TExpr.var "inpt")
    (TExpr.param "in_to_hidden") hidden_to_out
    (TExpr.param "hidden_bias") (TExpr.param "out_bias")
    hidden_transfer out_transfer lossName c_jacobian

/-!
Embedding of src/breze/learn/mlp.py: the dropout-rate validation at
construction and the `iter_fit` training loop with its post-step
max-norm column projection.  Weight matrices are real-valued here, as
the projection rescales by a square root.
-/

abbrev MatR := Mat ℝ

/-- Squared length of column `j` of `W`. -/
noncomputable def colSq (W : MatR) (j : Nat) : ℝ :=
  ∑ i ∈ Finset.range W.rows, (W.entry i j) ^ 2

/-- Modelled from the spec: `climin.project.max_length_columns`
(external optimizer library, consumed by mlp.py): every column whose
squared length exceeds `max_length` is rescaled so that its squared
length becomes exactly `max_length`; columns already within the bound
are left numerically unchanged. -/
noncomputable def max_length_columns (W : MatR) (max_length : ℝ) : MatR :=
  ⟨W.rows, W.cols, fun i j =>
    if colSq W j ≤ max_length then W.entry i j
    else W.entry i j * Real.sqrt (max_length / colSq W j)⟩

/-- The weight matrices constrained by the max-norm projection:
`in_to_hidden`, every `hidden_to_hidden_i` (one per hidden layer beyond
the first) and `hidden_to_out`, as read from the parameter table in
mlp.py lines 245-254 and 363-372. -/
structure DropoutParams where
  in_to_hidden : MatR
  hidden_to_hidden : List MatR
  hidden_to_out : MatR

/-- mlp.py lines 245-254 (identically lines 363-372): apply
`max_length_columns` to `in_to_hidden`, to each `hidden_to_hidden_i`
and to `hidden_to_out`. -/
noncomputable def applyMaxLengthConstraint (L : ℝ) (p : DropoutParams) :
    DropoutParams :=
  { in_to_hidden := max_length_columns p.in_to_hidden L,
    hidden_to_hidden := p.hidden_to_hidden.map (fun W => max_length_columns W L),
    hidden_to_out := max_length_columns p.hidden_to_out L }

/-- mlp.py lines 243-254, `DropoutMlp.iter_fit` (and identically lines
361-372, `FastDropoutNetwork.iter_fit`): each loop iteration pulls one
optimizer step (an in-place update of the parameter table by the
external optimizer, here an arbitrary state transformer), yields the
step record with the parameters in their post-step state, and only on
resumption — when the caller requests the next record — applies the
max-norm projection (when `max_length` is set) before pulling the next
step.  The trace records, per iteration, the parameter state visible at
the yield point and the state after resumption. -/
noncomputable def iter_fit_trace (max_length : Option ℝ) :
    List (DropoutParams → DropoutParams) → DropoutParams →
    List (DropoutParams × DropoutParams)
  | [], _ => []
  | step :: rest, p =>
      let atYield := step p
      let afterResume :=
        match max_length with
        | none => atYield
        | some L => applyMaxLengthConstraint L atYield
      (atYield, afterResume) :: iter_fit_trace max_length rest afterResume

/-- Every column of `W` has squared length at most `L`. -/
def matColsBounded (L : ℝ) (W : MatR) : Prop := ∀ j, colSq W j ≤ L

/-- Every column of every constrained matrix has squared length at most
`L`. -/
def paramsBounded (L : ℝ) (p : DropoutParams) : Prop :=
  matColsBounded L p.in_to_hidden ∧
  (∀ W ∈ p.hidden_to_hidden, matColsBounded L W) ∧
  matColsBounded L p.hidden_to_out

/-- mlp.py lines 319-320, `FastDropoutNetwork.__init__`: the dropout
rate check as written in the source — it raises only when the input
rate is out of range AND the hidden rate is out of range. -/
def FastDropoutNetwork.init_rate_check
    (p_dropout_inpt p_dropout_hidden : ℚ) : Except String Unit :=
  if (¬ (0 < p_dropout_inpt ∧ p_dropout_inpt < 1)) ∧
     (¬ (0 < p_dropout_hidden ∧ p_dropout_hidden < 1)) then
    Except.error "dropout rates have to be in (0, 1)"
  else
    Except.ok ()

/-- mlp.py lines 144-182, `DropoutMlp.__init__`: the constructor stores
the dropout rates and performs no validation on them at all; no rate
check exists anywhere on the DropoutMlp construction path. -/
def DropoutMlp.init_rate_check
    (_p_dropout_inpt _p_dropout_hidden : ℚ) : Except String Unit :=
  Except.ok ()

/-!
Theorems for the claims.
-/

/-- C9: for all `n_inpt` and `n_hidden`, `get_parameter_spec` declares
exactly the slots `in_to_hidden : (n_inpt, n_hidden)`,
`hidden_bias : n_hidden` and `out_bias : n_inpt`, plus — exactly when
`tied_weights` is false — one further slot
`hidden_to_out : (n_hidden, n_inpt)`; no other slot is declared. -/
theorem get_parameter_spec_slots (n_inpt n_hidden : Nat) (tied_weights : Bool)
    (k : String) :
    AutoEncoder.get_parameter_spec n_inpt n_hidden tied_weights k =
      (if k = "in_to_hidden" then some (PShape.mat n_inpt n_hidden)
       else if k = "hidden_bias" then some (PShape.vec n_hidden)
       else if k = "out_bias" then some (PShape.vec n_inpt)
       else if k = "hidden_to_out" then
         (if tied_weights then none else some (PShape.mat n_hidden n_inpt))
       else none) := by
  cases tied_weights <;>
    simp only [AutoEncoder.get_parameter_spec, Bool.false_eq_true,
      if_false, if_true] <;>
    split_ifs <;> simp_all

/-- C2 (code bug): the constructor-time dropout-rate validation does not
fail fast on a single out-of-range rate.  The check written in
`FastDropoutNetwork.__init__` accepts `p_dropout_inpt = 2` with
`p_dropout_hidden = 1/2` (and symmetrically), because it raises only
when BOTH rates are out of range, and `DropoutMlp.__init__` performs no
rate validation at all; the error is raised only when both rates are
bad. -/
theorem dropout_rate_check_accepts_single_bad_rate :
    FastDropoutNetwork.init_rate_check 2 (1/2) = Except.ok () ∧
    FastDropoutNetwork.init_rate_check (1/2) 2 = Except.ok () ∧
    DropoutMlp.init_rate_check 2 (1/2) = Except.ok () ∧
    FastDropoutNetwork.init_rate_check 2 2 =
      Except.error "dropout rates have to be in (0, 1)" := by
  refine ⟨?_, ?_, rfl, ?_⟩ <;>
    simp [FastDropoutNetwork.init_rate_check] <;> norm_num

/-- The clean-path hidden expression of every autoencoder graph built by
`init_exprs`, as a function of the hidden transfer name. -/
def aeHidden (ht : String) : TExpr :=
  TExpr.transfer ht
    (TExpr.add (TExpr.dot (TExpr.var "inpt") (TExpr.param "in_to_hidden"))
      (TExpr.param "hidden_bias"))

/-- The pre-output expression of a tied-weights autoencoder graph: the
decode matrix multiplying the hidden layer is the transpose of the
`in_to_hidden` parameter slot itself. -/
def tiedOutputIn (ht : String) : TExpr :=
  TExpr.add
    (TExpr.dot (aeHidden ht) (TExpr.transposeE (TExpr.param "in_to_hidden")))
    (TExpr.param "out_bias")

/-- C3: for every autoencoder variant constructed with tied weights, the
decode matrix used at graph-build time is the transpose of the
`in_to_hidden` parameter slot (the same slot, not a separate
parameter): the `output_in` role of every variant's graph multiplies
the hidden expression by `transposeE (param in_to_hidden)`; and under
every evaluation the transpose view equals the `in_to_hidden` parameter
value transposed elementwise. -/
theorem tied_decode_matrix_is_transpose
    (ht ot lossName sl : String)
    (c_noise c_sparsity sparsity_target c_jacobian : ℚ) :
    (AutoEncoder.init_exprs true ht ot lossName) "output_in"
        = some (tiedOutputIn ht)
    ∧ (SparseAutoEncoder.init_exprs true ht ot lossName sl c_sparsity
        sparsity_target) "output_in" = some (tiedOutputIn ht)
    ∧ (ContractiveAutoEncoder.init_exprs true ht ot lossName c_jacobian)
        "output_in" = some (tiedOutputIn ht)
    ∧ (DenoisingAutoEncoder.init_exprs true ht ot lossName "gauss"
        c_noise).map (fun m => m "output_in")
        = Except.ok (some (tiedOutputIn ht))
    ∧ (DenoisingAutoEncoder.init_exprs true ht ot lossName "blink"
        c_noise).map (fun m => m "output_in")
        = Except.ok (some (tiedOutputIn ht))
    ∧ (∀ env : EvalEnv, ∀ i j : Nat,
        (evalE env (TExpr.transposeE (TExpr.param "in_to_hidden"))).entry i j
          = (env.pars "in_to_hidden").entry j i) :=
  ⟨rfl, rfl, rfl, rfl, rfl, fun _ _ _ => rfl⟩

/-- C5: only the plain `AutoEncoder.init_exprs` binds the role feature
(as an alias of the hidden expression); the graphs built by the
denoising, sparse and contractive `init_exprs` overrides contain no
feature entry. -/
theorem feature_role_only_in_plain_autoencoder
    (tied : Bool) (ht ot lossName sl : String)
    (c_noise c_sparsity sparsity_target c_jacobian : ℚ) :
    (AutoEncoder.init_exprs tied ht ot lossName) "feature"
        = some (aeHidden ht)
    ∧ (SparseAutoEncoder.init_exprs tied ht ot lossName sl c_sparsity
        sparsity_target) "feature" = none
    ∧ (ContractiveAutoEncoder.init_exprs tied ht ot lossName c_jacobian)
        "feature" = none
    ∧ (∀ noise_type : String, ∀ m : Exprs,
        DenoisingAutoEncoder.init_exprs tied ht ot lossName noise_type
          c_noise = Except.ok m → m "feature" = none) := by
  refine ⟨rfl, rfl, rfl, ?_⟩
  intro nt m h
  simp only [DenoisingAutoEncoder.init_exprs,
    DenoisingAutoEncoder.make_exprs] at h
  cases hm : DenoisingAutoEncoder.corrupted_expr (TExpr.var "inpt") nt c_noise with
  | error e => rw [hm] at h; exact absurd h (by simp)
  | ok corrupted =>
      rw [hm] at h
      injection h with h2
      subst h2
      rfl

/-- C5 witness: a successfully constructed denoising graph (gauss noise)
has no feature role. -/
theorem feature_role_only_in_plain_autoencoder_witness :
    (match DenoisingAutoEncoder.init_exprs true "sigmoid" "identity"
        "squared" "gauss" (1/2) with
     | Except.ok m => m "feature" = none
     | Except.error _ => False) := by
  exact (feature_role_only_in_plain_autoencoder true "sigmoid" "identity"
    "squared" "fro" (1/2) 0 (1/100) 0).2.2.2 "gauss" _ rfl

/-- C8: the noise dispatch of `DenoisingAutoEncoder.make_exprs`: the
name gauss produces the additive Gaussian perturbation of the input
scaled by `c_noise` (under every evaluation: the input value plus
`c_noise` times the realized noise draw), the name blink produces the
elementwise masking of the input (under every evaluation: the input
value times the realized 0/1 mask drawn with drop probability
`c_noise`), and any other name returns the unrecognized-noise-kind
ValueError without building a graph. -/
theorem denoising_noise_dispatch
    (inpt i2h h2o hb ob : TExpr) (ht ot lossName : String) (c_noise : ℚ) :
    ((DenoisingAutoEncoder.make_exprs inpt i2h h2o hb ob ht ot lossName
        "gauss" c_noise).map (fun m => m "corrupted")
        = Except.ok (some (TExpr.gaussPerturb inpt c_noise)))
    ∧ ((DenoisingAutoEncoder.make_exprs inpt i2h h2o hb ob ht ot lossName
        "blink" c_noise).map (fun m => m "corrupted")
        = Except.ok (some (TExpr.maskE inpt c_noise)))
    ∧ (∀ (env : EvalEnv) (i j : Nat),
        (evalE env (TExpr.gaussPerturb inpt c_noise)).entry i j
          = (evalE env inpt).entry i j + c_noise * env.noiseDraw.entry i j)
    ∧ (∀ (env : EvalEnv) (i j : Nat),
        (evalE env (TExpr.maskE inpt c_noise)).entry i j
          = (evalE env inpt).entry i j * env.maskDraw.entry i j)
    ∧ (∀ noise_type : String, noise_type ≠ "gauss" → noise_type ≠ "blink" →
        DenoisingAutoEncoder.make_exprs inpt i2h h2o hb ob ht ot lossName
          noise_type c_noise
          = Except.error ("unknown noise type " ++ noise_type)) := by
  refine ⟨rfl, rfl, fun _ _ _ => rfl, fun _ _ _ => rfl, ?_⟩
  intro nt h1 h2
  have hc : DenoisingAutoEncoder.corrupted_expr inpt nt c_noise
      = Except.error ("unknown noise type " ++ nt) := by
    unfold DenoisingAutoEncoder.corrupted_expr
    split
    next => exact absurd rfl h1
    next => exact absurd rfl h2
    next => rfl
  simp only [DenoisingAutoEncoder.make_exprs, hc]

/-- C8 witness: the unrecognized noise name flip is rejected with the
ValueError message. -/
theorem denoising_noise_dispatch_witness :
    DenoisingAutoEncoder.make_exprs (TExpr.var "inpt")
      (TExpr.param "in_to_hidden") (TExpr.param "hidden_to_out")
      (TExpr.param "hidden_bias") (TExpr.param "out_bias")
      "sigmoid" "identity" "squared" "flip" (1/2)
      = Except.error ("unknown noise type " ++ "flip") :=
  (denoising_noise_dispatch (TExpr.var "inpt") (TExpr.param "in_to_hidden")
    (TExpr.param "hidden_to_out") (TExpr.param "hidden_bias")
    (TExpr.param "out_bias") "sigmoid" "identity" "squared"
    (1/2)).2.2.2.2 "flip" (by decide) (by decide)

/-- C4: whenever `DenoisingAutoEncoder.make_exprs` succeeds, the base
graph is built from the clean input: the role true_loss is the
clean-path loss, identical to the plain autoencoder's loss expression
for the same arguments; the role loss is that same expression with
every occurrence of the input expression substituted by the corrupted
expression (and nothing else substituted — `TExpr.clone` replaces
exactly the occurrences of its target); and the hidden and output
roles stay bound to the clean-input path of the base graph. -/
theorem denoising_substitutes_inpt_in_loss_only
    (inpt i2h h2o hb ob : TExpr) (ht ot lossName noise_type : String)
    (c_noise : ℚ) (m : Exprs)
    (h : DenoisingAutoEncoder.make_exprs inpt i2h h2o hb ob ht ot lossName
        noise_type c_noise = Except.ok m) :
    ∃ corrupted : TExpr,
      m "corrupted" = some corrupted
      ∧ m "true_loss" = some (Exprs.get
          (AutoEncoder.make_exprs inpt i2h h2o hb ob ht ot lossName) "loss")
      ∧ m "loss" = some (TExpr.clone inpt corrupted (Exprs.get
          (AutoEncoder.make_exprs inpt i2h h2o hb ob ht ot lossName) "loss"))
      ∧ m "hidden"
          = (AutoEncoder.make_exprs inpt i2h h2o hb ob ht ot lossName) "hidden"
      ∧ m "output"
          = (AutoEncoder.make_exprs inpt i2h h2o hb ob ht ot lossName) "output" := by
  simp only [DenoisingAutoEncoder.make_exprs] at h
  cases hm : DenoisingAutoEncoder.corrupted_expr inpt noise_type c_noise with
  | error e => rw [hm] at h; exact absurd h (by simp)
  | ok corrupted =>
      rw [hm] at h
      injection h with h2
      subst h2
      exact ⟨corrupted, rfl, rfl, rfl, rfl, rfl⟩

/-- C4 witness: a concrete successful construction (gauss noise, tied
decode matrix) at which the substitution structure is exhibited. -/
theorem denoising_substitutes_inpt_in_loss_only_witness :
    ∃ m : Exprs,
      DenoisingAutoEncoder.make_exprs (TExpr.var "inpt")
        (TExpr.param "in_to_hidden")
        (TExpr.transposeE (TExpr.param "in_to_hidden"))
        (TExpr.param "hidden_bias") (TExpr.param "out_bias")
        "sigmoid" "identity" "squared" "gauss" (1/10) = Except.ok m
      ∧ ∃ corrupted : TExpr,
          m "corrupted" = some corrupted
          ∧ m "true_loss" = some (Exprs.get
              (AutoEncoder.make_exprs (TExpr.var "inpt")
                (TExpr.param "in_to_hidden")
                (TExpr.transposeE (TExpr.param "in_to_hidden"))
                (TExpr.param "hidden_bias") (TExpr.param "out_bias")
                "sigmoid" "identity" "squared") "loss") := by
  refine ⟨_, rfl, ?_⟩
  obtain ⟨corrupted, h1, h2, _⟩ :=
    denoising_substitutes_inpt_in_loss_only (TExpr.var "inpt")
      (TExpr.param "in_to_hidden")
      (TExpr.transposeE (TExpr.param "in_to_hidden"))
      (TExpr.param "hidden_bias") (TExpr.param "out_bias")
      "sigmoid" "identity" "squared" "gauss" (1/10) _ rfl
  exact ⟨corrupted, h1, h2⟩

/-- C10: every variant builder preserves a base role before overwriting
or deleting it: the denoising builder stores the pristine loss under
true_loss before replacing loss; the sparse and contractive builders
store the pristine loss under reconstruct_loss and the pristine
rowwise loss under reconstruct_loss_rowwise before overwriting loss
and deleting loss_rowwise. -/
theorem variant_builders_preserve_base_roles
    (inpt i2h h2o hb ob : TExpr) (ht ot lossName sl : String)
    (c_noise c_sparsity sparsity_target c_jacobian : ℚ) :
    (∀ (noise_type : String) (m : Exprs),
        DenoisingAutoEncoder.make_exprs inpt i2h h2o hb ob ht ot lossName
          noise_type c_noise = Except.ok m →
        m "true_loss" = some (Exprs.get
          (AutoEncoder.make_exprs inpt i2h h2o hb ob ht ot lossName) "loss"))
    ∧ ((SparseAutoEncoder.make_exprs inpt i2h h2o hb ob ht ot lossName sl
        c_sparsity sparsity_target) "reconstruct_loss"
        = some (Exprs.get
          (AutoEncoder.make_exprs inpt i2h h2o hb ob ht ot lossName) "loss"))
    ∧ ((SparseAutoEncoder.make_exprs inpt i2h h2o hb ob ht ot lossName sl
        c_sparsity sparsity_target) "reconstruct_loss_rowwise"
        = some (Exprs.get
          (AutoEncoder.make_exprs inpt i2h h2o hb ob ht ot lossName)
          "loss_rowwise"))
    ∧ ((SparseAutoEncoder.make_exprs inpt i2h h2o hb ob ht ot lossName sl
        c_sparsity sparsity_target) "loss_rowwise" = none)
    ∧ ((ContractiveAutoEncoder.make_exprs inpt i2h h2o hb ob ht ot lossName
        c_jacobian) "reconstruct_loss"
        = some (Exprs.get
          (AutoEncoder.make_exprs inpt i2h h2o hb ob ht ot lossName) "loss"))
    ∧ ((ContractiveAutoEncoder.make_exprs inpt i2h h2o hb ob ht ot lossName
        c_jacobian) "reconstruct_loss_rowwise"
        = some (Exprs.get
          (AutoEncoder.make_exprs inpt i2h h2o hb ob ht ot lossName)
          "loss_rowwise"))
    ∧ ((ContractiveAutoEncoder.make_exprs inpt i2h h2o hb ob ht ot lossName
        c_jacobian) "loss_rowwise" = none) := by
  refine ⟨?_, rfl, rfl, rfl, rfl, rfl, rfl⟩
  intro nt m h
  simp only [DenoisingAutoEncoder.make_exprs] at h
  cases hm : DenoisingAutoEncoder.corrupted_expr inpt nt c_noise with
  | error e => rw [hm] at h; exact absurd h (by simp)
  | ok corrupted => rw [hm] at h; injection h with h2; subst h2; rfl

/-- C10 witness: the pristine loss is preserved under true_loss in a
concrete successful denoising construction. -/
theorem variant_builders_preserve_base_roles_witness :
    (match DenoisingAutoEncoder.make_exprs (TExpr.var "inpt")
        (TExpr.param "in_to_hidden") (TExpr.param "hidden_to_out")
        (TExpr.param "hidden_bias") (TExpr.param "out_bias")
        "tanh" "identity" "squared" "blink" (1/5) with
     | Except.ok m => m "true_loss" = some (Exprs.get
         (AutoEncoder.make_exprs (TExpr.var "inpt")
           (TExpr.param "in_to_hidden") (TExpr.param "hidden_to_out")
           (TExpr.param "hidden_bias") (TExpr.param "out_bias")
           "tanh" "identity" "squared") "loss")
     | Except.error _ => False) := by
  exact (variant_builders_preserve_base_roles (TExpr.var "inpt")
    (TExpr.param "in_to_hidden") (TExpr.param "hidden_to_out")
    (TExpr.param "hidden_bias") (TExpr.param "out_bias")
    "tanh" "identity" "squared" "unused" (1/5) 0 (1/100) 0).1 "blink" _ rfl

/-- A scalar (mean-reduced) expression plus zero times a scalar
(sum-reduced) expression evaluates to exactly the first expression. -/
theorem eval_meanAll_add_smul_zero_sumAll (env : EvalEnv) (x y : TExpr) :
    evalE env (TExpr.add (TExpr.meanAll x) (TExpr.smul 0 (TExpr.sumAll y)))
      = evalE env (TExpr.meanAll x) := by
  simp only [evalE, bcast2, max_self, zero_mul, add_zero]

/-- C6: in the sparse builder's graph, sparsity_loss is the scalar sum
of the named sparsity loss applied to the sparsity target against the
batch-axis mean of the hidden activations; the final loss is
reconstruct_loss plus `c_sparsity` times sparsity_loss with the
reconstruction term unscaled; and with `c_sparsity = 0` the training
loss evaluates to exactly the reconstruction loss under every
environment. -/
theorem sparse_loss_decomposition
    (inpt i2h h2o hb ob : TExpr) (ht ot lossName sl : String)
    (c_sparsity sparsity_target : ℚ) :
    ((SparseAutoEncoder.make_exprs inpt i2h h2o hb ob ht ot lossName sl
        c_sparsity sparsity_target) "sparsity_loss"
      = some (TExpr.sumAll (TExpr.lossElem sl (TExpr.constE sparsity_target)
          (TExpr.meanAxis0 (Exprs.get
            (AutoEncoder.make_exprs inpt i2h h2o hb ob ht ot lossName)
            "hidden")))))
    ∧ ((SparseAutoEncoder.make_exprs inpt i2h h2o hb ob ht ot lossName sl
        c_sparsity sparsity_target) "loss"
      = some (TExpr.add
          (Exprs.get (AutoEncoder.make_exprs inpt i2h h2o hb ob ht ot
            lossName) "loss")
          (TExpr.smul c_sparsity
            (TExpr.sumAll (TExpr.lossElem sl (TExpr.constE sparsity_target)
              (TExpr.meanAxis0 (Exprs.get
                (AutoEncoder.make_exprs inpt i2h h2o hb ob ht ot lossName)
                "hidden")))))))
    ∧ (∀ env : EvalEnv,
        evalE env (Exprs.get (SparseAutoEncoder.make_exprs inpt i2h h2o hb
          ob ht ot lossName sl 0 sparsity_target) "loss")
          = evalE env (Exprs.get (SparseAutoEncoder.make_exprs inpt i2h h2o
            hb ob ht ot lossName sl 0 sparsity_target) "reconstruct_loss")) := by
  refine ⟨rfl, rfl, fun env => ?_⟩
  exact eval_meanAll_add_smul_zero_sumAll env _ _

/-- Non-negativity of the evaluation of any expression of the shape of
the contractive Jacobian penalty: the sum over all entries of the
batch-mean of a squared expression multiplied elementwise by another
squared expression. -/
theorem eval_jacobian_shape_nonneg (env : EvalEnv) (g w : TExpr) (i j : Nat) :
    0 ≤ (evalE env (TExpr.sumAll (TExpr.mulE
        (TExpr.meanAxis0 (TExpr.square g)) (TExpr.square w)))).entry i j := by
  simp only [evalE, bcast2]
  refine Finset.sum_nonneg fun a _ => Finset.sum_nonneg fun b _ =>
    mul_nonneg ?_ ?_
  · exact div_nonneg (Finset.sum_nonneg fun k _ => mul_self_nonneg _)
      (Nat.cast_nonneg _)
  · exact mul_self_nonneg _

/-- C7: the jacobian_loss role of the contractive builder's graph is the
sum over entries of the batch-mean of the squared derivative of the
summed batch-mean hidden activation with respect to `hidden_in`,
weighted elementwise by the squared encode weights; and it evaluates to
a non-negative number under every environment — every parameter
assignment, every input and every interpretation of the derivative. -/
theorem contractive_jacobian_loss_nonneg
    (inpt i2h h2o hb ob : TExpr) (ht ot lossName : String)
    (c_jacobian : ℚ) (env : EvalEnv) (i j : Nat) :
    ((ContractiveAutoEncoder.make_exprs inpt i2h h2o hb ob ht ot lossName
        c_jacobian) "jacobian_loss"
      = some (TExpr.sumAll (TExpr.mulE
          (TExpr.meanAxis0 (TExpr.square (TExpr.gradE
            (TExpr.sumAll (TExpr.meanAxis0 (Exprs.get
              (AutoEncoder.make_exprs inpt i2h h2o hb ob ht ot lossName)
              "hidden")))
            (Exprs.get (AutoEncoder.make_exprs inpt i2h h2o hb ob ht ot
              lossName) "hidden_in"))))
          (TExpr.square i2h))))
    ∧ 0 ≤ (evalE env (Exprs.get (ContractiveAutoEncoder.make_exprs inpt i2h
        h2o hb ob ht ot lossName c_jacobian) "jacobian_loss")).entry i j :=
  ⟨rfl, eval_jacobian_shape_nonneg env _ _ i j⟩

/-- A parameter state whose `in_to_hidden` single column has squared
length 4 (one entry equal to 2): the result of an optimizer step that
overshoots the bound 1. -/
noncomputable def overlongParams : DropoutParams :=
  { in_to_hidden := ⟨1, 1, fun _ _ => 2⟩,
    hidden_to_hidden := [],
    hidden_to_out := ⟨1, 1, fun _ _ => 0⟩ }

/-- The all-zero one-layer parameter state. -/
noncomputable def restParams : DropoutParams :=
  { in_to_hidden := ⟨1, 1, fun _ _ => 0⟩,
    hidden_to_hidden := [],
    hidden_to_out := ⟨1, 1, fun _ _ => 0⟩ }

theorem max_length_columns_entry (W : MatR) (L : ℝ) (i j : Nat) :
    (max_length_columns W L).entry i j
      = if colSq W j ≤ L then W.entry i j
        else W.entry i j * Real.sqrt (L / colSq W j) := rfl

theorem max_length_columns_rows (W : MatR) (L : ℝ) :
    (max_length_columns W L).rows = W.rows := rfl

/-- After the projection, every column has squared length at most `L`
(for a non-negative length bound). -/
theorem colSq_max_length_columns_le (W : MatR) (L : ℝ) (hL : 0 ≤ L)
    (j : Nat) : colSq (max_length_columns W L) j ≤ L := by
  unfold colSq
  rw [max_length_columns_rows]
  by_cases hc : colSq W j ≤ L
  · simp only [max_length_columns_entry, if_pos hc]
    exact hc
  · have hn : 0 < colSq W j := lt_of_le_of_lt hL (lt_of_not_le hc)
    simp only [max_length_columns_entry, if_neg hc, mul_pow]
    rw [← Finset.sum_mul, Real.sq_sqrt (div_nonneg hL hn.le)]
    have hcol : (∑ i ∈ Finset.range W.rows, (W.entry i j) ^ 2) = colSq W j := rfl
    rw [hcol, mul_comm, div_mul_cancel₀ _ (ne_of_gt hn)]

/-- Columns already within the bound are numerically unchanged by the
projection. -/
theorem max_length_columns_within_bound_unchanged (W : MatR) (L : ℝ)
    (j : Nat) (h : colSq W j ≤ L) (i : Nat) :
    (max_length_columns W L).entry i j = W.entry i j := by
  rw [max_length_columns_entry, if_pos h]

/-- After the post-step projection pass over all constrained matrices,
every column of every constrained matrix is within the bound. -/
theorem applyMaxLengthConstraint_bounded (L : ℝ) (hL : 0 ≤ L)
    (p : DropoutParams) : paramsBounded L (applyMaxLengthConstraint L p) := by
  refine ⟨fun j => colSq_max_length_columns_le _ _ hL j, ?_,
    fun j => colSq_max_length_columns_le _ _ hL j⟩
  intro W hW j
  simp only [applyMaxLengthConstraint, List.mem_map] at hW
  obtain ⟨V, _, rfl⟩ := hW
  exact colSq_max_length_columns_le _ _ hL j

/-- C1 counterexample: the claim that the max-norm constraint is applied
before the step record is yielded — so that at every yield point every
column is within the bound — is false on the code: `iter_fit` yields
first and projects only on resumption.  A single optimizer step that
leaves a column of squared length 4 under the bound `L = 1` produces a
yield point at which the parameters violate the bound. -/
theorem dropout_maxnorm_not_bounded_at_yield :
    ∃ pr ∈ iter_fit_trace (some 1) [fun _ => overlongParams] overlongParams,
      ¬ paramsBounded 1 pr.1 := by
  refine ⟨(overlongParams, applyMaxLengthConstraint 1 overlongParams),
    ?_, ?_⟩
  · simp [iter_fit_trace]
  · intro h
    have h0 := h.1 0
    have hc : colSq overlongParams.in_to_hidden 0 = 4 := by
      simp [colSq, overlongParams]
      norm_num
    rw [hc] at h0
    norm_num at h0

/-- C1 amended: in `DropoutMlp.iter_fit` and
`FastDropoutNetwork.iter_fit` with `max_length = L` set, the column-norm
constraint is applied after the step record is yielded, on resumption,
before the next optimizer step is pulled: for every iteration the state
after resumption is exactly the projection of the state at the yield
point, every column of every constrained matrix of the post-resumption
state has squared length at most `L`, and columns already within the
bound are numerically unchanged by the projection. -/
theorem dropout_maxnorm_applied_after_yield (L : ℝ) (hL : 0 ≤ L)
    (steps : List (DropoutParams → DropoutParams)) (p0 : DropoutParams) :
    (∀ pr ∈ iter_fit_trace (some L) steps p0,
        pr.2 = applyMaxLengthConstraint L pr.1 ∧ paramsBounded L pr.2)
    ∧ (∀ (W : MatR) (j : Nat), colSq W j ≤ L →
        ∀ i : Nat, (max_length_columns W L).entry i j = W.entry i j) := by
  constructor
  · induction steps generalizing p0 with
    | nil => intro pr h; simp [iter_fit_trace] at h
    | cons f rest ih =>
        intro pr h
        simp only [iter_fit_trace, List.mem_cons] at h
        rcases h with h | h
        · subst h
          exact ⟨rfl, applyMaxLengthConstraint_bounded L hL _⟩
        · exact ih _ pr h
  · intro W j hj i
    exact max_length_columns_within_bound_unchanged W L j hj i

/-- C1 witness: a concrete one-step run under bound 1, starting and
staying at the all-zero parameters, at which the amended statement is
instantiated and its hypotheses discharged. -/
theorem dropout_maxnorm_applied_after_yield_witness :
    ((restParams, applyMaxLengthConstraint 1 restParams)
        ∈ iter_fit_trace (some 1) [fun p => p] restParams)
    ∧ ((restParams, applyMaxLengthConstraint 1 restParams).2
        = applyMaxLengthConstraint 1
            (restParams, applyMaxLengthConstraint 1 restParams).1
        ∧ paramsBounded 1 (restParams, applyMaxLengthConstraint 1 restParams).2)
    ∧ colSq restParams.in_to_hidden 0 ≤ 1
    ∧ (max_length_columns restParams.in_to_hidden 1).entry 0 0
        = restParams.in_to_hidden.entry 0 0 := by
  have hmem : (restParams, applyMaxLengthConstraint 1 restParams)
      ∈ iter_fit_trace (some 1) [fun p => p] restParams := by
    simp [iter_fit_trace]
  have hcol : colSq restParams.in_to_hidden 0 ≤ 1 := by
    norm_num [colSq, restParams]
  exact ⟨hmem,
    (dropout_maxnorm_applied_after_yield 1 (by norm_num) [fun p => p]
      restParams).1 _ hmem,
    hcol,
    (dropout_maxnorm_applied_after_yield 1 (by norm_num) [fun p => p]
      restParams).2 restParams.in_to_hidden 0 hcol 0⟩
